import Mathlib

set_option maxHeartbeats 1000000

/-!
Shallow embedding of the Solana/Anchor escrow program `clawscrow`
(`programs/clawscrow/src/lib.rs`).

Modelling conventions:
* `u64` amounts are `Nat`; overflow-checked arithmetic is modelled by
  `checked_add` / `checked_sub`, which fail exactly when the Rust
  `u64::checked_add` / `u64::checked_sub` would.
* `i64` timestamps are `Int` (the program never does checked arithmetic
  on them; `delivered_at + review_period` is a plain `i64` addition).
* `Pubkey` is abstracted as `Nat`; `Pubkey::default()` is `0`.
* The `[u8; 32]` delivery hash is abstracted as an opaque `Nat`
  (`[0u8; 32]` is `0`); no operation inspects its contents.
* The SPL-token `transfer` CPI is modelled after the token program: it is
  atomic and fails when the source balance is smaller than the amount or
  when the destination balance would overflow its `u64` (the token program
  credits the destination with a checked addition, and token balances are
  `u64`).  A failing CPI aborts the whole instruction with no state change
  (Solana transaction semantics), so each instruction is a pure function
  returning `Except` — the `.ok` payload is the committed post-state, an
  `.error` commits nothing.
* The `Arbitrate` account struct carries `has_one = arbitrator`
  (source line 412); Anchor validates account constraints before the
  handler body runs, so a caller who is not the stored arbitrator fails
  there, with Anchor's `ConstraintHasOne` error, before any in-body check
  is reached.  This pre-check is modelled explicitly in `arbitrate`, and
  makes the in-body `require!(..., Unauthorized)` of line 173 dead code.
* The `bump` / `vault_bump` fields are used only to derive the PDA
  signer seeds of the vault authority and have no effect on the logic;
  they are omitted from the record.
* The destination token accounts of `approve` / `auto_approve` /
  `arbitrate` (`buyer_token`, `seller_token`, `arbitrator_token` in the
  `Resolve` and `Arbitrate` account structs) carry no Anchor constraint
  tying them to the stored parties; they are therefore modelled as
  caller-supplied owners, exactly as in the source.
-/

/-- One more than the largest `u64` value: `2 ^ 64`. -/
def U64LIM : Nat := 2 ^ 64

/-- Rust `u64::checked_add`: `None` exactly when the sum does not fit in 64 bits. -/
def checked_add (a b : Nat) : Option Nat :=
  if a + b < U64LIM then some (a + b) else none

/-- Rust `u64::checked_sub`: `None` exactly on underflow. -/
def checked_sub (a b : Nat) : Option Nat :=
  if b ≤ a then some (a - b) else none

/-- Party / account identities (Solana `Pubkey`), abstracted as naturals. -/
abbrev Pubkey := Nat

/-- Model of `Pubkey::default()`. -/
def PUBKEY_DEFAULT : Pubkey := 0

/-- The `EscrowState` enum of the source, all eight variants. -/
inductive EscrowState
  | Created
  | Accepted
  | Delivered
  | Approved
  | Disputed
  | ResolvedBuyer
  | ResolvedSeller
  | Cancelled
deriving DecidableEq, Repr

/-- The `Ruling` enum of the source. -/
inductive Ruling
  | BuyerWins
  | SellerWins
deriving DecidableEq, Repr

/-- The `ClawscrowError` enum of the source (lines 517-533), all seven variants. -/
inductive ClawscrowError
  | InvalidState
  | Unauthorized
  | InvalidAmount
  | DescriptionTooLong
  | InvalidDeadline
  | Overflow
  | ReviewPeriodActive
deriving DecidableEq, Repr

/-- An instruction either fails with a program error (`ClawscrowError`), with
Anchor's `ConstraintHasOne` during account validation (the
`has_one = arbitrator` constraint of the `Arbitrate` struct), or with a
failing token-transfer CPI (the token program rejects a debit whose source
balance is insufficient and a credit that would overflow the destination's
`u64` balance). -/
inductive OpError
  | program : ClawscrowError → OpError
  | constraintHasOne
  | transferFailed
deriving DecidableEq, Repr

/-- The `Escrow` account of the source (minus the PDA bump seeds, which only
serve to sign vault debits and never influence the logic). -/
structure Escrow where
  escrow_id : Nat
  buyer : Pubkey
  seller : Pubkey
  arbitrator : Pubkey
  payment_amount : Nat
  buyer_collateral : Nat
  seller_collateral : Nat
  deadline_ts : Int
  description : String
  state : EscrowState
  delivery_hash : Nat
  created_at : Int
  delivered_at : Int
deriving DecidableEq, Repr

/-- One vault debit: the owner of the caller-supplied destination token
account, and the amount transferred to it. -/
structure Payout where
  dest : Pubkey
  amount : Nat
deriving DecidableEq, Repr

/-- Total amount leaving the vault in one instruction. -/
def payoutSum (l : List Payout) : Nat := (l.map Payout.amount).sum

/-- The full pool held for one escrow once accepted:
`payment_amount + buyer_collateral + seller_collateral`. -/
def total_pool (e : Escrow) : Nat :=
  e.payment_amount + e.buyer_collateral + e.seller_collateral

/-- `let review_period: i64 = 3 * 24 * 60 * 60;` of `auto_approve`. -/
def REVIEW_PERIOD : Int := 3 * 24 * 60 * 60

/-- `create_escrow` (source lines 10-64).  Checks `payment_amount > 0`,
`description.len() <= 500`, `deadline_ts > now`, initialises the record in
state `Created`, computes `payment_amount.checked_add(buyer_collateral)`
(failing with `Overflow`), and funds the fresh vault from the buyer token
account.  Returns the record together with the vault balance. -/
def create_escrow (now : Int) (buyer arbitrator : Pubkey)
    (buyerTokenBalance : Nat) (escrow_id : Nat) (description : String)
    (payment_amount buyer_collateral seller_collateral : Nat)
    (deadline_ts : Int) : Except OpError (Escrow × Nat) :=
  if payment_amount > 0 then
    if description.length ≤ 500 then
      if deadline_ts > now then
        match checked_add payment_amount buyer_collateral with
        | none => .error (.program .Overflow)
        | some total =>
          if total ≤ buyerTokenBalance then
            .ok ({ escrow_id := escrow_id
                   buyer := buyer
                   seller := PUBKEY_DEFAULT
                   arbitrator := arbitrator
                   payment_amount := payment_amount
                   buyer_collateral := buyer_collateral
                   seller_collateral := seller_collateral
                   deadline_ts := deadline_ts
                   description := description
                   state := .Created
                   delivery_hash := 0
                   created_at := now
                   delivered_at := 0 }, total)
          else .error .transferFailed
      else .error (.program .InvalidDeadline)
    else .error (.program .DescriptionTooLong)
  else .error (.program .InvalidAmount)

/-- `accept_escrow` (source lines 66-91).  Requires state `Created` and a
matching `escrow_id`, records the caller as seller, moves to `Accepted`,
and transfers `seller_collateral` from the seller token account into the
vault.  The vault is a `u64` SPL token account: the token program credits it
with a checked addition, so the transfer — and with it the whole
instruction — fails when the new vault balance would not fit in 64 bits. -/
def accept_escrow (e : Escrow) (vault : Nat) (seller : Pubkey)
    (sellerTokenBalance : Nat) (escrow_id : Nat) :
    Except OpError (Escrow × Nat) :=
  if e.state = .Created then
    if e.escrow_id = escrow_id then
      if e.seller_collateral ≤ sellerTokenBalance then
        if vault + e.seller_collateral < U64LIM then
          .ok ({ e with seller := seller, state := .Accepted },
               vault + e.seller_collateral)
        else .error .transferFailed
      else .error .transferFailed
    else .error (.program .InvalidState)
  else .error (.program .InvalidState)

/-- `deliver` (source lines 93-105).  Requires state `Accepted` and the stored
seller as caller; records the delivery hash and time and moves to
`Delivered`.  No vault movement. -/
def deliver (e : Escrow) (now : Int) (seller : Pubkey)
    (delivery_hash : Nat) : Except OpError Escrow :=
  if e.state = .Accepted then
    if seller = e.seller then
      .ok { e with delivery_hash := delivery_hash
                   state := .Delivered
                   delivered_at := now }
    else .error (.program .Unauthorized)
  else .error (.program .InvalidState)

/-- `approve` (source lines 107-156).  Requires state `Delivered`, the stored
buyer as signer and a matching `escrow_id`; computes
`payment_amount.checked_add(seller_collateral)` (failing with `Overflow`),
pays that sum to the caller-supplied seller token account and
`buyer_collateral` to the caller-supplied buyer token account, and moves to
`Approved`.  Returns the record, the remaining vault balance and the list
of vault debits. -/
def approve (e : Escrow) (vault : Nat) (signer : Pubkey)
    (buyerTokenOwner sellerTokenOwner : Pubkey) (escrow_id : Nat) :
    Except OpError (Escrow × Nat × List Payout) :=
  if e.state = .Delivered then
    if signer = e.buyer then
      if e.escrow_id = escrow_id then
        match checked_add e.payment_amount e.seller_collateral with
        | none => .error (.program .Overflow)
        | some seller_total =>
          if seller_total ≤ vault then
            if e.buyer_collateral ≤ vault - seller_total then
              .ok ({ e with state := .Approved },
                   vault - seller_total - e.buyer_collateral,
                   [⟨sellerTokenOwner, seller_total⟩,
                    ⟨buyerTokenOwner, e.buyer_collateral⟩])
            else .error .transferFailed
          else .error .transferFailed
      else .error (.program .InvalidState)
    else .error (.program .Unauthorized)
  else .error (.program .InvalidState)

/-- `raise_dispute` (source lines 158-168).  Requires state `Delivered` and the
stored buyer as caller; moves to `Disputed`.  No vault movement, and no
clock access: the function does not depend on time at all. -/
def raise_dispute (e : Escrow) (buyer : Pubkey) : Except OpError Escrow :=
  if e.state = .Delivered then
    if buyer = e.buyer then
      .ok { e with state := .Disputed }
    else .error (.program .Unauthorized)
  else .error (.program .InvalidState)

/-- The `match ruling` choosing the final state in `arbitrate`
(source lines 224-227). -/
def rulingState (r : Ruling) : EscrowState :=
  match r with
  | .BuyerWins => .ResolvedBuyer
  | .SellerWins => .ResolvedSeller

/-- The `match ruling` choosing the winner's token account in `arbitrate`
(source lines 192-195). -/
def rulingWinner (r : Ruling) (buyerTokenOwner sellerTokenOwner : Pubkey) :
    Pubkey :=
  match r with
  | .BuyerWins => buyerTokenOwner
  | .SellerWins => sellerTokenOwner

/-- `arbitrate` (source lines 170-232, account struct lines 402-433).  The
`Arbitrate` struct's `has_one = arbitrator` constraint is validated by Anchor
before the handler body, so a caller other than the stored arbitrator fails
with `ConstraintHasOne` before any in-body check; the handler then requires
state `Disputed`, the stored arbitrator (the in-body `require!`, now
unreachable for wrong callers) and a matching `escrow_id`, computes the
checked total pool and the fee `buyer_collateral / 100`, pays
`total_pool - fee` to the caller-supplied token account of the winner named
by the ruling and the fee to the caller-supplied arbitrator token account,
and moves to `ResolvedBuyer` / `ResolvedSeller`. -/
def arbitrate (e : Escrow) (vault : Nat) (arbitrator : Pubkey)
    (buyerTokenOwner sellerTokenOwner arbitratorTokenOwner : Pubkey)
    (escrow_id : Nat) (ruling : Ruling) :
    Except OpError (Escrow × Nat × List Payout) :=
  if arbitrator = e.arbitrator then
    if e.state = .Disputed then
      if arbitrator = e.arbitrator then
        if e.escrow_id = escrow_id then
          match checked_add e.payment_amount e.buyer_collateral with
          | none => .error (.program .Overflow)
          | some t1 =>
            match checked_add t1 e.seller_collateral with
            | none => .error (.program .Overflow)
            | some tp =>
              let arb_fee := e.buyer_collateral / 100
              match checked_sub tp arb_fee with
              | none => .error (.program .Overflow)
              | some winner_amount =>
                let winnerTokenOwner :=
                  rulingWinner ruling buyerTokenOwner sellerTokenOwner
                if winner_amount ≤ vault then
                  if arb_fee ≤ vault - winner_amount then
                    .ok ({ e with state := rulingState ruling },
                         vault - winner_amount - arb_fee,
                         [⟨winnerTokenOwner, winner_amount⟩,
                          ⟨arbitratorTokenOwner, arb_fee⟩])
                  else .error .transferFailed
                else .error .transferFailed
        else .error (.program .InvalidState)
      else .error (.program .Unauthorized)
    else .error (.program .InvalidState)
  else .error .constraintHasOne

/-- `auto_approve` (source lines 234-286).  Requires state `Delivered`, a
matching `escrow_id` and `now >= delivered_at + REVIEW_PERIOD` (failing with
`ReviewPeriodActive`), with no check at all on the signer; then performs
exactly the settlement of `approve`. -/
def auto_approve (e : Escrow) (vault : Nat) (now : Int) (signer : Pubkey)
    (buyerTokenOwner sellerTokenOwner : Pubkey) (escrow_id : Nat) :
    Except OpError (Escrow × Nat × List Payout) :=
  if e.state = .Delivered then
    if e.escrow_id = escrow_id then
      if now ≥ e.delivered_at + REVIEW_PERIOD then
        match checked_add e.payment_amount e.seller_collateral with
        | none => .error (.program .Overflow)
        | some seller_total =>
          if seller_total ≤ vault then
            if e.buyer_collateral ≤ vault - seller_total then
              .ok ({ e with state := .Approved },
                   vault - seller_total - e.buyer_collateral,
                   [⟨sellerTokenOwner, seller_total⟩,
                    ⟨buyerTokenOwner, e.buyer_collateral⟩])
            else .error .transferFailed
          else .error .transferFailed
      else .error (.program .ReviewPeriodActive)
    else .error (.program .InvalidState)
  else .error (.program .InvalidState)

/-- A reachable configuration of one escrow: the record, its vault balance and
the current time of the host clock. -/
structure World where
  escrow : Escrow
  vault : Nat
  now : Int
deriving DecidableEq, Repr

/-- Reachability: the worlds produced by a successful `create_escrow` followed
by any sequence of successful instructions, with the host clock advancing
monotonically.  `u64` instruction arguments are bounded by `U64LIM`. -/
inductive Reachable : World → Prop
  | created {now : Int} {buyer arbitrator : Pubkey} {bal eid : Nat}
      {descr : String} {pay bcol scol : Nat} {dl : Int} {e : Escrow} {v : Nat}
      (hpay : pay < U64LIM) (hbcol : bcol < U64LIM) (hscol : scol < U64LIM)
      (h : create_escrow now buyer arbitrator bal eid descr pay bcol scol dl
             = .ok (e, v)) :
      Reachable ⟨e, v, now⟩
  | tick {e : Escrow} {v : Nat} {t t2 : Int}
      (hr : Reachable ⟨e, v, t⟩) (ht : t ≤ t2) : Reachable ⟨e, v, t2⟩
  | accepted {e : Escrow} {v : Nat} {t : Int} {s : Pubkey} {sbal eid : Nat}
      {e2 : Escrow} {v2 : Nat}
      (hr : Reachable ⟨e, v, t⟩)
      (h : accept_escrow e v s sbal eid = .ok (e2, v2)) :
      Reachable ⟨e2, v2, t⟩
  | delivered {e : Escrow} {v : Nat} {t : Int} {s : Pubkey} {dh : Nat}
      {e2 : Escrow}
      (hr : Reachable ⟨e, v, t⟩) (h : deliver e t s dh = .ok e2) :
      Reachable ⟨e2, v, t⟩
  | approved {e : Escrow} {v : Nat} {t : Int} {s bto sto : Pubkey} {eid : Nat}
      {e2 : Escrow} {v2 : Nat} {outs : List Payout}
      (hr : Reachable ⟨e, v, t⟩)
      (h : approve e v s bto sto eid = .ok (e2, v2, outs)) :
      Reachable ⟨e2, v2, t⟩
  | disputed {e : Escrow} {v : Nat} {t : Int} {b : Pubkey} {e2 : Escrow}
      (hr : Reachable ⟨e, v, t⟩) (h : raise_dispute e b = .ok e2) :
      Reachable ⟨e2, v, t⟩
  | arbitrated {e : Escrow} {v : Nat} {t : Int} {a bto sto ato : Pubkey}
      {eid : Nat} {ruling : Ruling} {e2 : Escrow} {v2 : Nat}
      {outs : List Payout}
      (hr : Reachable ⟨e, v, t⟩)
      (h : arbitrate e v a bto sto ato eid ruling = .ok (e2, v2, outs)) :
      Reachable ⟨e2, v2, t⟩
  | autoApproved {e : Escrow} {v : Nat} {t : Int} {s bto sto : Pubkey}
      {eid : Nat} {e2 : Escrow} {v2 : Nat} {outs : List Payout}
      (hr : Reachable ⟨e, v, t⟩)
      (h : auto_approve e v t s bto sto eid = .ok (e2, v2, outs)) :
      Reachable ⟨e2, v2, t⟩

/-- Inversion of a successful `checked_add`. -/
theorem checked_add_some {a b t : Nat} (h : checked_add a b = some t) :
    a + b < U64LIM ∧ t = a + b := by
  unfold checked_add at h
  split at h <;> simp_all

/-- Inversion of a failing `checked_add`. -/
theorem checked_add_none {a b : Nat} (h : checked_add a b = none) :
    U64LIM ≤ a + b := by
  unfold checked_add at h
  split at h <;> simp_all

/-- `checked_add` succeeds on sums below `U64LIM`. -/
theorem checked_add_of_lt {a b : Nat} (h : a + b < U64LIM) :
    checked_add a b = some (a + b) := by
  unfold checked_add
  simp [h]

/-- `checked_sub` succeeds when no underflow occurs. -/
theorem checked_sub_of_le {a b : Nat} (h : b ≤ a) :
    checked_sub a b = some (a - b) := by
  unfold checked_sub
  simp [h]

/-- Inversion of a successful `create_escrow`. -/
theorem create_ok {now : Int} {buyer arbitrator : Pubkey} {bal eid : Nat}
    {descr : String} {pay bcol scol : Nat} {dl : Int} {e : Escrow} {v : Nat}
    (h : create_escrow now buyer arbitrator bal eid descr pay bcol scol dl
           = .ok (e, v)) :
    0 < pay ∧ descr.length ≤ 500 ∧ dl > now ∧ pay + bcol < U64LIM ∧
    pay + bcol ≤ bal ∧
    e = { escrow_id := eid, buyer := buyer, seller := PUBKEY_DEFAULT,
          arbitrator := arbitrator, payment_amount := pay,
          buyer_collateral := bcol, seller_collateral := scol,
          deadline_ts := dl, description := descr, state := .Created,
          delivery_hash := 0, created_at := now, delivered_at := 0 } ∧
    v = pay + bcol := by
  unfold create_escrow checked_add at h
  repeat' split at h
  all_goals simp_all

/-- Inversion of a successful `accept_escrow`. -/
theorem accept_ok {e : Escrow} {v : Nat} {s : Pubkey} {sbal eid : Nat}
    {e2 : Escrow} {v2 : Nat}
    (h : accept_escrow e v s sbal eid = .ok (e2, v2)) :
    e.state = .Created ∧ e.escrow_id = eid ∧ e.seller_collateral ≤ sbal ∧
    v + e.seller_collateral < U64LIM ∧
    e2 = { e with seller := s, state := .Accepted } ∧
    v2 = v + e.seller_collateral := by
  unfold accept_escrow at h
  repeat' split at h
  all_goals simp_all

/-- Inversion of a successful `deliver`. -/
theorem deliver_ok {e : Escrow} {now : Int} {s : Pubkey} {dh : Nat}
    {e2 : Escrow} (h : deliver e now s dh = .ok e2) :
    e.state = .Accepted ∧ s = e.seller ∧
    e2 = { e with delivery_hash := dh, state := .Delivered,
                  delivered_at := now } := by
  unfold deliver at h
  repeat' split at h
  all_goals simp_all

/-- Inversion of a successful `approve`. -/
theorem approve_ok {e : Escrow} {v : Nat} {s bto sto : Pubkey} {eid : Nat}
    {e2 : Escrow} {v2 : Nat} {outs : List Payout}
    (h : approve e v s bto sto eid = .ok (e2, v2, outs)) :
    e.state = .Delivered ∧ s = e.buyer ∧ e.escrow_id = eid ∧
    e.payment_amount + e.seller_collateral < U64LIM ∧
    e.payment_amount + e.seller_collateral ≤ v ∧
    e.buyer_collateral ≤ v - (e.payment_amount + e.seller_collateral) ∧
    e2 = { e with state := .Approved } ∧
    v2 = v - (e.payment_amount + e.seller_collateral) - e.buyer_collateral ∧
    outs = [⟨sto, e.payment_amount + e.seller_collateral⟩,
            ⟨bto, e.buyer_collateral⟩] := by
  unfold approve checked_add at h
  repeat' split at h
  all_goals simp_all
  all_goals omega

/-- Inversion of a successful `raise_dispute`. -/
theorem dispute_ok {e : Escrow} {b : Pubkey} {e2 : Escrow}
    (h : raise_dispute e b = .ok e2) :
    e.state = .Delivered ∧ b = e.buyer ∧ e2 = { e with state := .Disputed } := by
  unfold raise_dispute at h
  repeat' split at h
  all_goals simp_all

/-- Inversion of a successful `arbitrate`. -/
theorem arbitrate_ok {e : Escrow} {v : Nat} {a bto sto ato : Pubkey}
    {eid : Nat} {ruling : Ruling} {e2 : Escrow} {v2 : Nat}
    {outs : List Payout}
    (h : arbitrate e v a bto sto ato eid ruling = .ok (e2, v2, outs)) :
    e.state = .Disputed ∧ a = e.arbitrator ∧ e.escrow_id = eid ∧
    total_pool e < U64LIM ∧
    total_pool e - e.buyer_collateral / 100 ≤ v ∧
    e.buyer_collateral / 100 ≤ v - (total_pool e - e.buyer_collateral / 100) ∧
    e2 = { e with state := rulingState ruling } ∧
    v2 = v - (total_pool e - e.buyer_collateral / 100)
           - e.buyer_collateral / 100 ∧
    outs = [⟨rulingWinner ruling bto sto,
             total_pool e - e.buyer_collateral / 100⟩,
            ⟨ato, e.buyer_collateral / 100⟩] := by
  simp only [arbitrate, checked_add, checked_sub] at h
  repeat' split at h
  all_goals simp_all [total_pool]
  all_goals omega

/-- Inversion of a successful `auto_approve`. -/
theorem auto_approve_ok {e : Escrow} {v : Nat} {now : Int} {s bto sto : Pubkey}
    {eid : Nat} {e2 : Escrow} {v2 : Nat} {outs : List Payout}
    (h : auto_approve e v now s bto sto eid = .ok (e2, v2, outs)) :
    e.state = .Delivered ∧ e.escrow_id = eid ∧
    now ≥ e.delivered_at + REVIEW_PERIOD ∧
    e.payment_amount + e.seller_collateral < U64LIM ∧
    e.payment_amount + e.seller_collateral ≤ v ∧
    e.buyer_collateral ≤ v - (e.payment_amount + e.seller_collateral) ∧
    e2 = { e with state := .Approved } ∧
    v2 = v - (e.payment_amount + e.seller_collateral) - e.buyer_collateral ∧
    outs = [⟨sto, e.payment_amount + e.seller_collateral⟩,
            ⟨bto, e.buyer_collateral⟩] := by
  unfold auto_approve checked_add at h
  repeat' split at h
  all_goals simp_all
  all_goals omega

/-- Invariant of all reachable worlds: positive payment, the `create`-checked
bound on `payment_amount + buyer_collateral`, bounded collateral amounts, the
vault funding schedule of the spec (funded minus released, per state), the
fact that no transition ever produces `Cancelled`, and the `u64` bound on the
vault balance (the vault is a `u64` token account, filled only through
overflow-checked credits).  In particular, once a record is accepted the
whole pool was physically deposited, so `total_pool < 2 ^ 64` in the
`Accepted` / `Delivered` / `Disputed` states. -/
def ReachInv (w : World) : Prop :=
  0 < w.escrow.payment_amount ∧
  w.escrow.payment_amount + w.escrow.buyer_collateral < U64LIM ∧
  w.escrow.seller_collateral < U64LIM ∧
  (w.escrow.state = .Created →
      w.vault = w.escrow.payment_amount + w.escrow.buyer_collateral) ∧
  (w.escrow.state = .Accepted ∨ w.escrow.state = .Delivered ∨
      w.escrow.state = .Disputed → w.vault = total_pool w.escrow) ∧
  (w.escrow.state = .Approved ∨ w.escrow.state = .ResolvedBuyer ∨
      w.escrow.state = .ResolvedSeller → w.vault = 0) ∧
  w.escrow.state ≠ .Cancelled ∧
  w.vault < U64LIM

/-- Every reachable world satisfies the invariant. -/
theorem reachable_inv {w : World} (h : Reachable w) : ReachInv w := by
  induction h with
  | created hpay hbcol hscol h =>
    obtain ⟨h1, _, _, h4, _, he, hv⟩ := create_ok h
    subst he hv
    simp_all [ReachInv, total_pool]
  | tick hr ht ih =>
    exact ih
  | accepted hr h ih =>
    obtain ⟨hs, _, _, hb, he, hv⟩ := accept_ok h
    subst he hv
    obtain ⟨i1, i2, i3, i4, i5, i6, i7, i8⟩ := ih
    refine ⟨i1, i2, i3, ?_, ?_, ?_, ?_, ?_⟩ <;> simp_all [total_pool]
  | delivered hr h ih =>
    obtain ⟨hs, _, he⟩ := deliver_ok h
    subst he
    obtain ⟨i1, i2, i3, i4, i5, i6, i7, i8⟩ := ih
    refine ⟨i1, i2, i3, ?_, ?_, ?_, ?_, ?_⟩ <;> simp_all [total_pool]
  | approved hr h ih =>
    obtain ⟨hs, _, _, hlt, hle1, hle2, he, hv, _⟩ := approve_ok h
    subst he hv
    obtain ⟨i1, i2, i3, i4, i5, i6, i7, i8⟩ := ih
    have hv0 := i5 (Or.inr (Or.inl hs))
    refine ⟨i1, i2, i3, ?_, ?_, ?_, ?_, ?_⟩ <;>
      simp_all [total_pool] <;> omega
  | disputed hr h ih =>
    obtain ⟨hs, _, he⟩ := dispute_ok h
    subst he
    obtain ⟨i1, i2, i3, i4, i5, i6, i7, i8⟩ := ih
    refine ⟨i1, i2, i3, ?_, ?_, ?_, ?_, ?_⟩ <;> simp_all [total_pool]
  | arbitrated hr h ih =>
    rename_i e v t a bto sto ato eid ruling e2 v2 outs
    obtain ⟨i1, i2, i3, i4, i5, i6, i7, i8⟩ := ih
    obtain ⟨hs, -, -, hlt, hle1, hle2, he, hv, -⟩ := arbitrate_ok h
    subst he hv
    have hv0 := i5 (Or.inr (Or.inr hs))
    cases ruling <;>
      refine ⟨i1, i2, i3, ?_, ?_, ?_, ?_, ?_⟩ <;>
      simp_all [total_pool, rulingState] <;> omega
  | autoApproved hr h ih =>
    obtain ⟨hs, _, _, hlt, hle1, hle2, he, hv, _⟩ := auto_approve_ok h
    subst he hv
    obtain ⟨i1, i2, i3, i4, i5, i6, i7, i8⟩ := ih
    have hv0 := i5 (Or.inr (Or.inl hs))
    refine ⟨i1, i2, i3, ?_, ?_, ?_, ?_, ?_⟩ <;>
      simp_all [total_pool] <;> omega

/-- Happy-path example: record right after `create_escrow` (buyer 1,
arbitrator 3, id 7, payment 1000, collaterals 100/100). -/
def eCreated : Escrow :=
  { escrow_id := 7, buyer := 1, seller := PUBKEY_DEFAULT, arbitrator := 3,
    payment_amount := 1000, buyer_collateral := 100, seller_collateral := 100,
    deadline_ts := 1000, description := "", state := .Created,
    delivery_hash := 0, created_at := 0, delivered_at := 0 }

/-- Happy-path example after `accept_escrow` by seller 2. -/
def eAccepted : Escrow := { eCreated with seller := 2, state := .Accepted }

/-- Happy-path example after `deliver` at time 5. -/
def eDelivered : Escrow :=
  { eAccepted with delivery_hash := 77, state := .Delivered,
                   delivered_at := 5 }

/-- Happy-path example after `raise_dispute` by the buyer. -/
def eDisputed : Escrow := { eDelivered with state := .Disputed }

/-- Record whose `payment_amount + seller_collateral` does not fit in 64 bits
(`payment_amount = 2 ^ 64 - 1`, `seller_collateral = 1`) yet which passes
every check of `create_escrow`, since `create_escrow` only checks
`payment_amount + buyer_collateral`.  Such a record can never be accepted —
the vault's `u64` credit of the seller collateral fails in the token
program — so it is stuck in state `Created`. -/
def oCreated : Escrow :=
  { escrow_id := 9, buyer := 1, seller := PUBKEY_DEFAULT, arbitrator := 3,
    payment_amount := U64LIM - 1, buyer_collateral := 0,
    seller_collateral := 1, deadline_ts := 1000, description := "",
    state := .Created, delivery_hash := 0, created_at := 0,
    delivered_at := 0 }

/-- The happy-path `Created` world is reachable. -/
theorem reach_eCreated : Reachable ⟨eCreated, 1100, 0⟩ :=
  Reachable.created (by decide) (by decide) (by decide)
    (h := (rfl : create_escrow 0 1 3 1100 7 "" 1000 100 100 1000
                   = .ok (eCreated, 1100)))

/-- The happy-path `Accepted` world is reachable. -/
theorem reach_eAccepted : Reachable ⟨eAccepted, 1200, 0⟩ :=
  Reachable.accepted reach_eCreated
    (h := (rfl : accept_escrow eCreated 1100 2 100 7 = .ok (eAccepted, 1200)))

/-- The happy-path `Delivered` world (delivered at time 5) is reachable. -/
theorem reach_eDelivered : Reachable ⟨eDelivered, 1200, 5⟩ :=
  Reachable.delivered (Reachable.tick reach_eAccepted (by decide))
    (h := (rfl : deliver eAccepted 5 2 77 = .ok eDelivered))

/-- The happy-path `Delivered` world, after the clock has advanced to the end
of the review period, is reachable. -/
theorem reach_eDelivered_late : Reachable ⟨eDelivered, 1200, 259205⟩ :=
  Reachable.tick reach_eDelivered (by decide)

/-- The happy-path `Disputed` world is reachable. -/
theorem reach_eDisputed : Reachable ⟨eDisputed, 1200, 5⟩ :=
  Reachable.disputed reach_eDelivered
    (h := (rfl : raise_dispute eDelivered 1 = .ok eDisputed))

/-- The overflowing `Created` world is reachable: `create_escrow` accepts it. -/
theorem reach_oCreated : Reachable ⟨oCreated, U64LIM - 1, 0⟩ :=
  Reachable.created (by decide) (by decide) (by decide)
    (h := (rfl : create_escrow 0 1 3 (U64LIM - 1) 9 "" (U64LIM - 1) 0 1 1000
                   = .ok (oCreated, U64LIM - 1)))

/-- Claim C1: for every reachable world, funds only leave the vault through
`approve`, `auto_approve` and `arbitrate` — `accept_escrow` only increases the
vault, and `deliver` / `raise_dispute` take no vault and move no funds (their
types carry no balance) — and whenever one of the three settlement operations
succeeds, the sum of its outgoing transfers equals
`total_pool = payment_amount + buyer_collateral + seller_collateral` and the
vault is left at exactly 0. -/
theorem C1_only_settlement_drains_vault {w : World} (hr : Reachable w) :
    (∀ s sbal eid r, accept_escrow w.escrow w.vault s sbal eid = .ok r →
        w.vault ≤ r.2) ∧
    (∀ s bto sto eid r, approve w.escrow w.vault s bto sto eid = .ok r →
        payoutSum r.2.2 = total_pool w.escrow ∧ r.2.1 = 0) ∧
    (∀ t s bto sto eid r,
        auto_approve w.escrow w.vault t s bto sto eid = .ok r →
        payoutSum r.2.2 = total_pool w.escrow ∧ r.2.1 = 0) ∧
    (∀ a bto sto ato eid ruling r,
        arbitrate w.escrow w.vault a bto sto ato eid ruling = .ok r →
        payoutSum r.2.2 = total_pool w.escrow ∧ r.2.1 = 0) := by
  obtain ⟨i1, i2, i3, i4, i5, i6, i7, i8⟩ := reachable_inv hr
  refine ⟨?_, ?_, ?_, ?_⟩
  · rintro s sbal eid ⟨e2, v2⟩ h
    obtain ⟨-, -, -, -, -, hv⟩ := accept_ok h
    simp only at hv ⊢
    omega
  · rintro s bto sto eid ⟨e2, v2, outs⟩ h
    obtain ⟨hs, -, -, hlt, hle1, hle2, -, hv, ho⟩ := approve_ok h
    have hvv := i5 (Or.inr (Or.inl hs))
    subst hv ho
    simp only [payoutSum, List.map, List.sum_cons, List.sum_nil] at *
    unfold total_pool at *
    constructor <;> omega
  · rintro t s bto sto eid ⟨e2, v2, outs⟩ h
    obtain ⟨hs, -, -, hlt, hle1, hle2, -, hv, ho⟩ := auto_approve_ok h
    have hvv := i5 (Or.inr (Or.inl hs))
    subst hv ho
    simp only [payoutSum, List.map, List.sum_cons, List.sum_nil] at *
    unfold total_pool at *
    constructor <;> omega
  · rintro a bto sto ato eid ruling ⟨e2, v2, outs⟩ h
    obtain ⟨hs, -, -, hlt, hle1, hle2, -, hv, ho⟩ := arbitrate_ok h
    have hvv := i5 (Or.inr (Or.inr hs))
    subst hv ho
    simp only [payoutSum, List.map, List.sum_cons, List.sum_nil] at *
    unfold total_pool at *
    constructor <;> omega

/-- Witness for C1, instantiated on the reachable happy-path `Delivered` world:
the buyer's `approve` pays out the whole pool (1000 + 100 + 100) and leaves
the vault at 0. -/
theorem C1_witness :
    payoutSum [⟨2, 1100⟩, ⟨1, 100⟩] = total_pool eDelivered ∧ (0 : Nat) = 0 :=
  (C1_only_settlement_drains_vault reach_eDelivered).2.1 1 1 2 7
    ({ eDelivered with state := .Approved }, 0, [⟨2, 1100⟩, ⟨1, 100⟩]) rfl

/-- Claim C2: for every reachable world in state `Delivered`, `approve`
called by the stored buyer succeeds — paying
`payment_amount + seller_collateral` from the vault to the supplied seller
token account and `buyer_collateral` to the supplied buyer token account and
setting the state to `Approved`; the checked addition cannot overflow,
because the whole pool was physically deposited into the `u64` vault at
acceptance, so `payment_amount + seller_collateral ≤ total_pool < 2 ^ 64`.
From any other state it fails with `InvalidState`, and from `Delivered` with
any signer other than the stored buyer it fails with `Unauthorized`;
failures commit nothing (an `.error` carries no post-state). -/
theorem C2_approve_spec {w : World} (hr : Reachable w) (bto sto : Pubkey) :
    (w.escrow.state = .Delivered →
      approve w.escrow w.vault w.escrow.buyer bto sto w.escrow.escrow_id
        = .ok ({ w.escrow with state := .Approved }, 0,
               [⟨sto, w.escrow.payment_amount + w.escrow.seller_collateral⟩,
                ⟨bto, w.escrow.buyer_collateral⟩])) ∧
    (∀ s, w.escrow.state ≠ .Delivered →
      approve w.escrow w.vault s bto sto w.escrow.escrow_id
        = .error (.program .InvalidState)) ∧
    (∀ s, w.escrow.state = .Delivered → s ≠ w.escrow.buyer →
      approve w.escrow w.vault s bto sto w.escrow.escrow_id
        = .error (.program .Unauthorized)) := by
  obtain ⟨i1, i2, i3, i4, i5, i6, i7, i8⟩ := reachable_inv hr
  refine ⟨?_, ?_, ?_⟩
  · intro hs
    have hvv := i5 (Or.inr (Or.inl hs))
    unfold total_pool at hvv
    have hlt : w.escrow.payment_amount + w.escrow.seller_collateral
        < U64LIM := by omega
    have h1 : w.escrow.payment_amount + w.escrow.seller_collateral
        ≤ w.vault := by omega
    have h2 : w.escrow.buyer_collateral ≤ w.vault -
        (w.escrow.payment_amount + w.escrow.seller_collateral) := by omega
    have h3 : w.vault - (w.escrow.payment_amount +
        w.escrow.seller_collateral) - w.escrow.buyer_collateral = 0 := by
      omega
    simp [approve, hs, checked_add_of_lt hlt, h1, h2, h3]
  · intro s hne
    simp [approve, hne]
  · intro s hs hne
    simp [approve, hs, hne]

/-- Witness for C2, instantiated on the reachable happy-path `Delivered`
world. -/
theorem C2_witness :
    approve eDelivered 1200 eDelivered.buyer 1 2 eDelivered.escrow_id
      = .ok ({ eDelivered with state := .Approved }, 0,
             [⟨2, eDelivered.payment_amount + eDelivered.seller_collateral⟩,
              ⟨1, eDelivered.buyer_collateral⟩]) :=
  (C2_approve_spec reach_eDelivered 1 2).1 rfl

/-- Claim C3: for every reachable world in state `Disputed`, `arbitrate`
called by the stored arbitrator computes the fee as the truncating division
`buyer_collateral / 100`, pays `total_pool - fee` to the token account of the
winner selected by the ruling and the fee to the arbitrator token account —
regardless of which side wins — and moves to `ResolvedBuyer` /
`ResolvedSeller`; the checked additions fail with `Overflow` exactly when the
pool does not fit in 64 bits (the checked subtraction can never underflow
since `fee ≤ total_pool`). -/
theorem C3_arbitrate_spec {w : World} (hr : Reachable w)
    (bto sto ato : Pubkey) (ruling : Ruling)
    (hs : w.escrow.state = .Disputed) :
    (total_pool w.escrow < U64LIM →
      arbitrate w.escrow w.vault w.escrow.arbitrator bto sto ato
          w.escrow.escrow_id ruling
        = .ok ({ w.escrow with state := rulingState ruling }, 0,
               [⟨rulingWinner ruling bto sto,
                 total_pool w.escrow - w.escrow.buyer_collateral / 100⟩,
                ⟨ato, w.escrow.buyer_collateral / 100⟩])) ∧
    (U64LIM ≤ total_pool w.escrow →
      arbitrate w.escrow w.vault w.escrow.arbitrator bto sto ato
          w.escrow.escrow_id ruling = .error (.program .Overflow)) := by
  obtain ⟨i1, i2, i3, i4, i5, i6, i7, i8⟩ := reachable_inv hr
  have hvv := i5 (Or.inr (Or.inr hs))
  unfold total_pool at *
  constructor
  · intro hlt
    have hca1 : checked_add w.escrow.payment_amount
        w.escrow.buyer_collateral
        = some (w.escrow.payment_amount + w.escrow.buyer_collateral) :=
      checked_add_of_lt (by omega)
    have hca2 : checked_add
        (w.escrow.payment_amount + w.escrow.buyer_collateral)
        w.escrow.seller_collateral
        = some (w.escrow.payment_amount + w.escrow.buyer_collateral +
                w.escrow.seller_collateral) :=
      checked_add_of_lt (by omega)
    have hcs : checked_sub
        (w.escrow.payment_amount + w.escrow.buyer_collateral +
         w.escrow.seller_collateral) (w.escrow.buyer_collateral / 100)
        = some (w.escrow.payment_amount + w.escrow.buyer_collateral +
                w.escrow.seller_collateral -
                w.escrow.buyer_collateral / 100) :=
      checked_sub_of_le (by omega)
    have h1 : w.escrow.payment_amount + w.escrow.buyer_collateral +
        w.escrow.seller_collateral - w.escrow.buyer_collateral / 100
        ≤ w.vault := by omega
    have h2 : w.escrow.buyer_collateral / 100 ≤ w.vault -
        (w.escrow.payment_amount + w.escrow.buyer_collateral +
         w.escrow.seller_collateral -
         w.escrow.buyer_collateral / 100) := by omega
    have h3 : w.vault - (w.escrow.payment_amount +
        w.escrow.buyer_collateral + w.escrow.seller_collateral -
        w.escrow.buyer_collateral / 100) -
        w.escrow.buyer_collateral / 100 = 0 := by omega
    simp [arbitrate, hs, hca1, hca2, hcs, h1, h2, h3]
  · intro hge
    have hca1 : checked_add w.escrow.payment_amount
        w.escrow.buyer_collateral
        = some (w.escrow.payment_amount + w.escrow.buyer_collateral) :=
      checked_add_of_lt (by omega)
    have hca2 : checked_add
        (w.escrow.payment_amount + w.escrow.buyer_collateral)
        w.escrow.seller_collateral = none := by
      unfold checked_add
      rw [if_neg]
      omega
    simp [arbitrate, hs, hca1, hca2]

/-- Witness for C3, instantiated on the reachable happy-path `Disputed`
world with ruling `BuyerWins`: fee is `100 / 100 = 1`, the winner account
receives `1199`, the arbitrator account receives `1`. -/
theorem C3_witness :
    arbitrate eDisputed 1200 eDisputed.arbitrator 10 20 30
        eDisputed.escrow_id .BuyerWins
      = .ok ({ eDisputed with state := rulingState .BuyerWins }, 0,
             [⟨rulingWinner .BuyerWins 10 20,
               total_pool eDisputed - eDisputed.buyer_collateral / 100⟩,
              ⟨30, eDisputed.buyer_collateral / 100⟩]) :=
  (C3_arbitrate_spec reach_eDisputed 10 20 30 .BuyerWins rfl).1 (by decide)

/-- Counterexample to claim C4 as stated: with `payment_amount = 2 ^ 64 - 1`
and `seller_collateral = 1`, summing the payment with a collateral amount
overflows the 64-bit width, yet `create_escrow` succeeds — it only checks
`payment_amount + buyer_collateral`. -/
theorem C4_counterexample :
    U64LIM ≤ (U64LIM - 1) + 1 ∧
    create_escrow 0 1 3 (U64LIM - 1) 9 "" (U64LIM - 1) 0 1 1000
      = .ok (oCreated, U64LIM - 1) :=
  ⟨by decide, rfl⟩

/-- Claim C4 (amended): `create_escrow` fails with `Overflow` exactly when
`payment_amount + buyer_collateral` does not fit in 64 bits (its other checks
passing).  An overflowing `payment_amount + seller_collateral` is not
rejected at creation — but no later operation on a successfully created
record can ever fail with `Overflow` either: on every reachable record none
of `accept` / `deliver` / `dispute` / `approve` / `auto_approve` /
`arbitrate` returns `Overflow`, and a created record whose
`payment_amount + seller_collateral` overflows can never even be accepted —
the vault's `u64` credit of the seller collateral fails in the token
program, so `accept_escrow` fails with a transfer error and the record
stays in `Created`. -/
theorem C4_overflow_policy :
    (∀ (now : Int) (buyer arb : Pubkey) (bal eid : Nat) (descr : String)
        (pay bcol scol : Nat) (dl : Int),
      0 < pay → descr.length ≤ 500 → now < dl →
      (create_escrow now buyer arb bal eid descr pay bcol scol dl
          = .error (.program .Overflow) ↔ U64LIM ≤ pay + bcol)) ∧
    (∀ w : World, Reachable w →
      (∀ s sbal eid, accept_escrow w.escrow w.vault s sbal eid
          ≠ .error (.program .Overflow)) ∧
      (∀ t s dh, deliver w.escrow t s dh ≠ .error (.program .Overflow)) ∧
      (∀ b, raise_dispute w.escrow b ≠ .error (.program .Overflow)) ∧
      (∀ s bto sto eid, approve w.escrow w.vault s bto sto eid
          ≠ .error (.program .Overflow)) ∧
      (∀ t s bto sto eid, auto_approve w.escrow w.vault t s bto sto eid
          ≠ .error (.program .Overflow)) ∧
      (∀ a bto sto ato eid ruling,
          arbitrate w.escrow w.vault a bto sto ato eid ruling
            ≠ .error (.program .Overflow))) ∧
    (∀ w : World, Reachable w → w.escrow.state = .Created →
      U64LIM ≤ w.escrow.payment_amount + w.escrow.seller_collateral →
      ∀ s sbal, accept_escrow w.escrow w.vault s sbal w.escrow.escrow_id
          = .error .transferFailed) := by
  refine ⟨?_, ?_, ?_⟩
  · intro now buyer arb bal eid descr pay bcol scol dl hpay hdesc hdl
    constructor
    · intro h
      unfold create_escrow checked_add at h
      repeat' split at h
      all_goals simp_all
    · intro hge
      have hc : checked_add pay bcol = none := by
        unfold checked_add
        rw [if_neg]
        omega
      simp [create_escrow, hc, hpay, hdesc, hdl]
  · intro w hr
    obtain ⟨i1, i2, i3, i4, i5, i6, i7, i8⟩ := reachable_inv hr
    refine ⟨?_, ?_, ?_, ?_, ?_, ?_⟩
    · intro s sbal eid h
      unfold accept_escrow at h
      repeat' split at h
      all_goals simp_all
    · intro t s dh h
      unfold deliver at h
      repeat' split at h
      all_goals simp_all
    · intro b h
      unfold raise_dispute at h
      repeat' split at h
      all_goals simp_all
    · intro s bto sto eid h
      unfold approve checked_add at h
      repeat' split at h
      all_goals (try simp_all [total_pool])
      all_goals omega
    · intro t s bto sto eid h
      unfold auto_approve checked_add at h
      repeat' split at h
      all_goals (try simp_all [total_pool])
      all_goals omega
    · intro a bto sto ato eid ruling h
      simp only [arbitrate, checked_add, checked_sub] at h
      repeat' split at h
      all_goals (try simp_all [total_pool])
      all_goals omega
  · intro w hr hs hge s sbal
    obtain ⟨i1, i2, i3, i4, i5, i6, i7, i8⟩ := reachable_inv hr
    have hv := i4 hs
    have hnb : ¬(w.vault + w.escrow.seller_collateral < U64LIM) := by
      omega
    simp [accept_escrow, hs, hnb]

/-- Witness for C4, instantiated on concrete inputs: a creation whose
`payment_amount + buyer_collateral` overflows fails with `Overflow`;
`approve` on the reachable happy-path `Delivered` record does not return
`Overflow`; and accepting the reachable created record whose
`payment_amount + seller_collateral` overflows fails with a transfer error,
not `Overflow`. -/
theorem C4_witness :
    (create_escrow 0 1 3 5 11 "" 1 U64LIM 0 10
        = .error (.program .Overflow) ↔ U64LIM ≤ 1 + U64LIM) ∧
    approve eDelivered 1200 1 1 2 7 ≠ .error (.program .Overflow) ∧
    accept_escrow oCreated (U64LIM - 1) 2 5 oCreated.escrow_id
      = .error .transferFailed := by
  refine ⟨?_, ?_, ?_⟩
  · exact C4_overflow_policy.1 0 1 3 5 11 "" 1 U64LIM 0 10
      (by decide) (by decide) (by decide)
  · exact (C4_overflow_policy.2.1 ⟨eDelivered, 1200, 5⟩
      reach_eDelivered).2.2.2.1 1 1 2 7
  · exact C4_overflow_policy.2.2 ⟨oCreated, U64LIM - 1, 0⟩ reach_oCreated
      rfl (by decide) 2 5

/-- Claim C5, evaluated at the failing input: the reachable happy-path
`Delivered` world has buyer 1, seller 2, arbitrator 3, yet `auto_approve`
called by the complete stranger 99 — the `Resolve` account struct checks
neither the signer nor the ownership of the supplied destination token
accounts — succeeds and sends the entire pool (1100 + 100) to token accounts
owned by 99, who is none of the record's stored parties. -/
theorem C5_unrelated_destination_drain :
    Reachable ⟨eDelivered, 1200, 259205⟩ ∧
    eDelivered.buyer = 1 ∧ eDelivered.seller = 2 ∧
    eDelivered.arbitrator = 3 ∧
    (99 : Pubkey) ≠ eDelivered.buyer ∧ (99 : Pubkey) ≠ eDelivered.seller ∧
    (99 : Pubkey) ≠ eDelivered.arbitrator ∧
    auto_approve eDelivered 1200 259205 99 99 99 eDelivered.escrow_id
      = .ok ({ eDelivered with state := .Approved }, 0,
             [⟨99, 1100⟩, ⟨99, 100⟩]) :=
  ⟨reach_eDelivered_late, rfl, rfl, rfl, by decide, by decide, by decide,
   rfl⟩

/-- Claim C6: for every reachable world in state `Delivered` and any caller,
`auto_approve` invoked strictly before `delivered_at + REVIEW_PERIOD` fails
with `ReviewPeriodActive` (committing nothing), and invoked at exactly
`delivered_at + REVIEW_PERIOD` or later it succeeds; the checked addition of
the settlement cannot overflow, because the whole pool was physically
deposited into the `u64` vault at acceptance. -/
theorem C6_time_gate {w : World} (hr : Reachable w) (s bto sto : Pubkey)
    (t : Int) (hs : w.escrow.state = .Delivered) :
    (t < w.escrow.delivered_at + REVIEW_PERIOD →
      auto_approve w.escrow w.vault t s bto sto w.escrow.escrow_id
        = .error (.program .ReviewPeriodActive)) ∧
    (w.escrow.delivered_at + REVIEW_PERIOD ≤ t →
      auto_approve w.escrow w.vault t s bto sto w.escrow.escrow_id
        = .ok ({ w.escrow with state := .Approved }, 0,
               [⟨sto, w.escrow.payment_amount + w.escrow.seller_collateral⟩,
                ⟨bto, w.escrow.buyer_collateral⟩])) := by
  obtain ⟨i1, i2, i3, i4, i5, i6, i7, i8⟩ := reachable_inv hr
  constructor
  · intro ht
    have hnt : ¬(w.escrow.delivered_at + REVIEW_PERIOD ≤ t) := by omega
    simp [auto_approve, hs, hnt]
  · intro ht
    have hvv := i5 (Or.inr (Or.inl hs))
    unfold total_pool at hvv
    have hlt : w.escrow.payment_amount + w.escrow.seller_collateral
        < U64LIM := by omega
    have h1 : w.escrow.payment_amount + w.escrow.seller_collateral
        ≤ w.vault := by omega
    have h2 : w.escrow.buyer_collateral ≤ w.vault -
        (w.escrow.payment_amount + w.escrow.seller_collateral) := by omega
    have h3 : w.vault - (w.escrow.payment_amount +
        w.escrow.seller_collateral) - w.escrow.buyer_collateral = 0 := by
      omega
    simp [auto_approve, hs, ht, checked_add_of_lt hlt, h1, h2, h3]

/-- Witness for C6, instantiated on the reachable happy-path `Delivered`
world (delivered at 5): at time `259204 = 5 + REVIEW_PERIOD - 1` the call
fails with `ReviewPeriodActive`, at `259205 = 5 + REVIEW_PERIOD` it succeeds
for caller 42. -/
theorem C6_witness :
    auto_approve eDelivered 1200 259204 42 1 2 eDelivered.escrow_id
      = .error (.program .ReviewPeriodActive) ∧
    auto_approve eDelivered 1200 259205 42 1 2 eDelivered.escrow_id
      = .ok ({ eDelivered with state := .Approved }, 0,
             [⟨2, eDelivered.payment_amount + eDelivered.seller_collateral⟩,
              ⟨1, eDelivered.buyer_collateral⟩]) :=
  ⟨(C6_time_gate reach_eDelivered 42 1 2 259204 rfl).1 (by decide),
   (C6_time_gate reach_eDelivered 42 1 2 259205 rfl).2 (by decide)⟩

/-- Counterexample to claim C7 as stated: on the reachable `Created` world,
`deliver` called by 42 — not the stored seller — fails with `InvalidState`
rather than `Unauthorized`, because every handler checks the state before the
caller. -/
theorem C7_counterexample :
    Reachable ⟨eCreated, 1100, 0⟩ ∧
    (42 : Pubkey) ≠ eCreated.seller ∧
    deliver eCreated 0 42 123 = .error (.program .InvalidState) :=
  ⟨reach_eCreated, by decide, rfl⟩

/-- Claim C7 (amended): for every record (in particular every reachable one)
and every caller other than the required role, the operation fails and
mutates nothing (an `.error` carries no post-state, so record and vault are
unchanged) — but not always with `Unauthorized`: `deliver`, `raise_dispute`
and `approve` fail with `Unauthorized` when the record is in the operation's
precondition state and with `InvalidState` otherwise, because those handlers
check the state before the caller, while `arbitrate` called by anyone other
than the stored arbitrator always fails at the `Arbitrate` struct's
`has_one = arbitrator` account constraint (Anchor's `ConstraintHasOne`),
before any state check is reached. -/
theorem C7_authorization (e : Escrow) (v : Nat) (t : Int) :
    (∀ s dh, s ≠ e.seller → e.state = .Accepted →
        deliver e t s dh = .error (.program .Unauthorized)) ∧
    (∀ s dh, s ≠ e.seller → e.state ≠ .Accepted →
        deliver e t s dh = .error (.program .InvalidState)) ∧
    (∀ b, b ≠ e.buyer → e.state = .Delivered →
        raise_dispute e b = .error (.program .Unauthorized)) ∧
    (∀ b, b ≠ e.buyer → e.state ≠ .Delivered →
        raise_dispute e b = .error (.program .InvalidState)) ∧
    (∀ s bto sto, s ≠ e.buyer → e.state = .Delivered →
        approve e v s bto sto e.escrow_id
          = .error (.program .Unauthorized)) ∧
    (∀ s bto sto, s ≠ e.buyer → e.state ≠ .Delivered →
        approve e v s bto sto e.escrow_id
          = .error (.program .InvalidState)) ∧
    (∀ a bto sto ato ruling, a ≠ e.arbitrator →
        arbitrate e v a bto sto ato e.escrow_id ruling
          = .error .constraintHasOne) := by
  refine ⟨?_, ?_, ?_, ?_, ?_, ?_, ?_⟩
  · intro s dh hne hs
    simp [deliver, hs, hne]
  · intro s dh hne hs
    simp [deliver, hs]
  · intro b hne hs
    simp [raise_dispute, hs, hne]
  · intro b hne hs
    simp [raise_dispute, hs]
  · intro s bto sto hne hs
    simp [approve, hs, hne]
  · intro s bto sto hne hs
    simp [approve, hs]
  · intro a bto sto ato ruling hne
    simp [arbitrate, hne]

/-- Witness for C7: a non-buyer disputing the delivered record fails with
`Unauthorized`, and a non-arbitrator ruling on the disputed record fails at
the `has_one` account constraint. -/
theorem C7_witness :
    raise_dispute eDelivered 9 = .error (.program .Unauthorized) ∧
    arbitrate eDisputed 1200 7 10 20 30 eDisputed.escrow_id .BuyerWins
      = .error .constraintHasOne :=
  ⟨(C7_authorization eDelivered 1200 0).2.2.1 9 (by decide) rfl,
   (C7_authorization eDisputed 1200 0).2.2.2.2.2.2 7 10 20 30
     .BuyerWins (by decide)⟩

/-- Counterexample to claim C8 as stated: `arbitrate` invoked on the
reachable `Delivered` record — not `arbitrate`'s precondition state — by a
caller other than the stored arbitrator does not fail with `InvalidState`:
it fails earlier, at the `has_one = arbitrator` account constraint, with
Anchor's `ConstraintHasOne`. -/
theorem C8_counterexample :
    Reachable ⟨eDelivered, 1200, 5⟩ ∧
    eDelivered.state ≠ .Disputed ∧
    (7 : Pubkey) ≠ eDelivered.arbitrator ∧
    arbitrate eDelivered 1200 7 10 20 30 eDelivered.escrow_id .BuyerWins
      = .error .constraintHasOne ∧
    (OpError.constraintHasOne : OpError) ≠ .program .InvalidState :=
  ⟨reach_eDelivered, by decide, by decide, rfl, by decide⟩

/-- Claim C8 (amended): the state machine is strict and forward-only.  Every
operation invoked (with its own escrow id) on a record whose state is not
its exact precondition state — in particular any replay after success and
any call on a terminal `Approved` / `ResolvedBuyer` / `ResolvedSeller`
record — fails without mutating state or vault: with `InvalidState`, except
that `arbitrate` invoked by a caller other than the stored arbitrator fails
even earlier, at the `has_one = arbitrator` account constraint
(`ConstraintHasOne`).  And every successful operation makes exactly one
forward move: `Created → Accepted → Delivered → Approved or Disputed`,
`Disputed → ResolvedBuyer/ResolvedSeller`. -/
theorem C8_strict_state_machine (e : Escrow) (v : Nat) (t : Int) :
    (e.state ≠ .Created → ∀ s sbal,
        accept_escrow e v s sbal e.escrow_id
          = .error (.program .InvalidState)) ∧
    (e.state ≠ .Accepted → ∀ s dh,
        deliver e t s dh = .error (.program .InvalidState)) ∧
    (e.state ≠ .Delivered → ∀ s bto sto,
        approve e v s bto sto e.escrow_id
          = .error (.program .InvalidState)) ∧
    (e.state ≠ .Delivered → ∀ b,
        raise_dispute e b = .error (.program .InvalidState)) ∧
    (e.state ≠ .Delivered → ∀ tm s bto sto,
        auto_approve e v tm s bto sto e.escrow_id
          = .error (.program .InvalidState)) ∧
    (e.state ≠ .Disputed → ∀ bto sto ato ruling,
        arbitrate e v e.arbitrator bto sto ato e.escrow_id ruling
          = .error (.program .InvalidState)) ∧
    (∀ a bto sto ato eid ruling, a ≠ e.arbitrator →
        arbitrate e v a bto sto ato eid ruling
          = .error .constraintHasOne) ∧
    (∀ s sbal eid r, accept_escrow e v s sbal eid = .ok r →
        e.state = .Created ∧ r.1.state = .Accepted) ∧
    (∀ s dh r, deliver e t s dh = .ok r →
        e.state = .Accepted ∧ r.state = .Delivered) ∧
    (∀ s bto sto eid r, approve e v s bto sto eid = .ok r →
        e.state = .Delivered ∧ r.1.state = .Approved) ∧
    (∀ b r, raise_dispute e b = .ok r →
        e.state = .Delivered ∧ r.state = .Disputed) ∧
    (∀ tm s bto sto eid r, auto_approve e v tm s bto sto eid = .ok r →
        e.state = .Delivered ∧ r.1.state = .Approved) ∧
    (∀ a bto sto ato eid ruling r,
        arbitrate e v a bto sto ato eid ruling = .ok r →
        e.state = .Disputed ∧ r.1.state = rulingState ruling) := by
  refine ⟨?_, ?_, ?_, ?_, ?_, ?_, ?_, ?_, ?_, ?_, ?_, ?_, ?_⟩
  · intro hs s sbal
    simp [accept_escrow, hs]
  · intro hs s dh
    simp [deliver, hs]
  · intro hs s bto sto
    simp [approve, hs]
  · intro hs b
    simp [raise_dispute, hs]
  · intro hs tm s bto sto
    simp [auto_approve, hs]
  · intro hs bto sto ato ruling
    simp [arbitrate, hs]
  · intro a bto sto ato eid ruling hne
    simp [arbitrate, hne]
  · rintro s sbal eid ⟨e2, v2⟩ h
    obtain ⟨h1, -, -, -, he, -⟩ := accept_ok h
    exact ⟨h1, by simp [he]⟩
  · intro s dh r h
    obtain ⟨h1, -, he⟩ := deliver_ok h
    exact ⟨h1, by simp [he]⟩
  · rintro s bto sto eid ⟨e2, v2, outs⟩ h
    obtain ⟨h1, -, -, -, -, -, he, -, -⟩ := approve_ok h
    exact ⟨h1, by simp [he]⟩
  · intro b r h
    obtain ⟨h1, -, he⟩ := dispute_ok h
    exact ⟨h1, by simp [he]⟩
  · rintro tm s bto sto eid ⟨e2, v2, outs⟩ h
    obtain ⟨h1, -, -, -, -, -, he, -, -⟩ := auto_approve_ok h
    exact ⟨h1, by simp [he]⟩
  · rintro a bto sto ato eid ruling ⟨e2, v2, outs⟩ h
    obtain ⟨h1, -, -, -, -, -, he, -, -⟩ := arbitrate_ok h
    exact ⟨h1, by simp [he]⟩

/-- Witness for C8: replaying `accept_escrow` on the already-delivered record
fails with `InvalidState`; `raise_dispute` on a terminal `Approved` record
fails with `InvalidState`; and the stored arbitrator ruling on the
not-yet-disputed record fails with `InvalidState`. -/
theorem C8_witness :
    accept_escrow eDelivered 1200 5 0 eDelivered.escrow_id
      = .error (.program .InvalidState) ∧
    raise_dispute { eDelivered with state := .Approved } 1
      = .error (.program .InvalidState) ∧
    arbitrate eDelivered 1200 eDelivered.arbitrator 10 20 30
        eDelivered.escrow_id .BuyerWins
      = .error (.program .InvalidState) :=
  ⟨(C8_strict_state_machine eDelivered 1200 0).1 (by decide) 5 0,
   (C8_strict_state_machine { eDelivered with state := .Approved } 1200
     0).2.2.2.1 (by decide) 1,
   (C8_strict_state_machine eDelivered 1200 0).2.2.2.2.2.1 (by decide)
     10 20 30 .BuyerWins⟩

/-- Claim C9: whenever `approve` and `auto_approve` both succeed on the same
record, vault and destination accounts, they produce the very same result —
the same post-record (state `Approved`), the same remaining vault balance and
the same payout list — whatever their signers and the call time. -/
theorem C9_approve_auto_same_settlement (e : Escrow) (v : Nat) (t : Int)
    (s s2 bto sto : Pubkey) (eid : Nat)
    (h1 : ∃ r, approve e v s bto sto eid = .ok r)
    (h2 : ∃ r, auto_approve e v t s2 bto sto eid = .ok r) :
    approve e v s bto sto eid = auto_approve e v t s2 bto sto eid := by
  obtain ⟨⟨e1a, v1a, o1⟩, hA⟩ := h1
  obtain ⟨⟨e2a, v2a, o2⟩, hB⟩ := h2
  obtain ⟨-, -, -, -, -, -, heA, hvA, hoA⟩ := approve_ok hA
  obtain ⟨-, -, -, -, -, -, heB, hvB, hoB⟩ := auto_approve_ok hB
  rw [hA, hB]
  simp_all

/-- Witness for C9: on the happy-path `Delivered` record, the buyer's
`approve` and a stranger's late `auto_approve` return identical results. -/
theorem C9_witness :
    approve eDelivered 1200 1 1 2 7
      = auto_approve eDelivered 1200 259205 42 1 2 7 :=
  C9_approve_auto_same_settlement eDelivered 1200 259205 1 42 1 2 7
    ⟨_, rfl⟩ ⟨_, rfl⟩

/-- Claim C10: `raise_dispute` imposes no time window — the function reads no
clock at all (the source handler never calls `Clock::get`), so on any record
in state `Delivered` the stored buyer's dispute succeeds; moreover on a
reachable `Delivered` world the clock may advance arbitrarily far (in
particular to or past `delivered_at + REVIEW_PERIOD`) and, as long as
`auto_approve` has not run (the record is unchanged), the dispute still
succeeds.  Finally the program error enum `ClawscrowError` consists of
exactly the seven listed kinds — no `ReviewPeriodExpired` kind exists. -/
theorem C10_dispute_untimed :
    (∀ (e : Escrow) (b : Pubkey), e.state = .Delivered → b = e.buyer →
        raise_dispute e b = .ok { e with state := .Disputed }) ∧
    (∀ w : World, Reachable w → w.escrow.state = .Delivered →
      ∀ t2 : Int, w.now ≤ t2 →
        Reachable ⟨w.escrow, w.vault, t2⟩ ∧
        raise_dispute w.escrow w.escrow.buyer
          = .ok { w.escrow with state := .Disputed }) ∧
    (∀ err : ClawscrowError,
        err = .InvalidState ∨ err = .Unauthorized ∨ err = .InvalidAmount ∨
        err = .DescriptionTooLong ∨ err = .InvalidDeadline ∨
        err = .Overflow ∨ err = .ReviewPeriodActive) := by
  refine ⟨?_, ?_, ?_⟩
  · intro e b hs hb
    simp [raise_dispute, hs, hb]
  · intro w hr hs t2 ht
    exact ⟨Reachable.tick hr ht, by simp [raise_dispute, hs]⟩
  · intro err
    cases err <;> simp

/-- Witness for C10: the buyer's dispute on the happy-path `Delivered` record
succeeds, and still succeeds after the clock has advanced to 999999, far past
`delivered_at + REVIEW_PERIOD = 259205`. -/
theorem C10_witness :
    raise_dispute eDelivered 1 = .ok { eDelivered with state := .Disputed } ∧
    (Reachable ⟨eDelivered, 1200, 999999⟩ ∧
     raise_dispute eDelivered eDelivered.buyer
       = .ok { eDelivered with state := .Disputed }) :=
  ⟨C10_dispute_untimed.1 eDelivered 1 rfl rfl,
   C10_dispute_untimed.2.1 ⟨eDelivered, 1200, 5⟩ reach_eDelivered rfl
     999999 (by decide)⟩
